import Mathlib

/-!
Shallow embedding of the state-synchronization core of the counter-app
repository: the counter reducer and hook layer (src/hooks/index.ts), the
theme-mode resolver (src/hooks/index.ts, useTheme), and the persistent
storage adapter (src/utils/index.ts, createStorageAdapter, together with
the read path of useLocalStorage).

JavaScript numbers are modelled as Int (the spec declares the counter value
an integer and all arithmetic in the embedded code is integer arithmetic on
integer inputs).  Ambient nondeterministic capabilities used only to fill
informational fields (crypto.randomUUID for history-entry ids, Date for
timestamps) are not modelled; the history entries carry the fields the
reducer computes deterministically: action kind, previousValue, newValue.
-/

/-- Action kinds, the string constants of the CounterActionType const
assertion in src/types/index.ts.  At runtime an action's type is just a
string, and the reducer's switch has a default branch for any string that
is not one of these four. -/
def CounterActionType.INCREMENT : String := "INCREMENT"

/-- DECREMENT action kind string constant. -/
def CounterActionType.DECREMENT : String := "DECREMENT"

/-- RESET action kind string constant. -/
def CounterActionType.RESET : String := "RESET"

/-- SET_VALUE action kind string constant. -/
def CounterActionType.SET_VALUE : String := "SET_VALUE"

/-- The four recognized action kinds of the reducer's switch. -/
def recognizedActionTypes : List String :=
  [CounterActionType.INCREMENT, CounterActionType.DECREMENT,
   CounterActionType.RESET, CounterActionType.SET_VALUE]

/-- One entry of the counter history (CounterHistoryEntry in
src/types/index.ts), restricted to the deterministically computed fields;
id and the three Date fields come from ambient uuid/clock capabilities. -/
structure CounterHistoryEntry where
  action : String
  previousValue : Int
  newValue : Int
  deriving DecidableEq, Repr

/-- CounterState from src/types/index.ts. -/
structure CounterState where
  value : Int
  isLoading : Bool
  error : Option String
  history : List CounterHistoryEntry
  deriving DecidableEq, Repr

/-- CounterAction from src/hooks/index.ts: a type string plus an optional
numeric payload. -/
structure CounterAction where
  type : String
  payload : Option Int
  deriving DecidableEq, Repr

/-- The history-entry constructor used inside counterReducer
(createHistoryEntry in src/hooks/index.ts), restricted to the
deterministic fields. -/
def createHistoryEntry (actionType : String) (previousValue newValue : Int) :
    CounterHistoryEntry :=
  { action := actionType, previousValue := previousValue, newValue := newValue }

/-- counterReducer from src/hooks/index.ts lines 91-157.  The switch on
action.type is embedded as a chain of string comparisons; the default
branch returns the input state itself. -/
def counterReducer (state : CounterState) (action : CounterAction) : CounterState :=
  if action.type = CounterActionType.INCREMENT then
    let incrementedValue := state.value + 1
    { state with
      value := incrementedValue,
      history := state.history ++
        [createHistoryEntry CounterActionType.INCREMENT state.value incrementedValue] }
  else if action.type = CounterActionType.DECREMENT then
    let decrementedValue := max 0 (state.value - 1)
    { state with
      value := decrementedValue,
      history := state.history ++
        [createHistoryEntry CounterActionType.DECREMENT state.value decrementedValue] }
  else if action.type = CounterActionType.RESET then
    { state with
      value := 0,
      history := state.history ++
        [createHistoryEntry CounterActionType.RESET state.value 0] }
  else if action.type = CounterActionType.SET_VALUE then
    let newValue := action.payload.getD 0
    { state with
      value := newValue,
      history := state.history ++
        [createHistoryEntry CounterActionType.SET_VALUE state.value newValue] }
  else
    state

/-- CounterConfig from src/types/index.ts. -/
structure CounterConfig where
  initialValue : Int
  minValue : Int
  maxValue : Int
  step : Int
  enableHistory : Bool
  enablePersistence : Bool
  deriving DecidableEq, Repr

/-- The default configuration built inside useCounter (src/hooks/index.ts
lines 163-173); Number.MAX_SAFE_INTEGER is 2^53 - 1. -/
def defaultConfig : CounterConfig :=
  { initialValue := 0, minValue := 0, maxValue := 9007199254740991,
    step := 1, enableHistory := true, enablePersistence := false }

/-- The initial state built inside useCounter (src/hooks/index.ts lines
175-180): the configured initialValue is used as-is, with no clamping. -/
def initialState (config : CounterConfig) : CounterState :=
  { value := config.initialValue, isLoading := false, error := none, history := [] }

/-- The increment callback of useCounter (src/hooks/index.ts lines
196-200): dispatches INCREMENT only when state.value < config.maxValue,
otherwise the state is left as it is. -/
def useCounter.increment (config : CounterConfig) (state : CounterState) : CounterState :=
  if state.value < config.maxValue then
    counterReducer state { type := CounterActionType.INCREMENT, payload := none }
  else
    state

/-- The decrement callback of useCounter (src/hooks/index.ts lines
202-206): dispatches DECREMENT only when state.value > config.minValue. -/
def useCounter.decrement (config : CounterConfig) (state : CounterState) : CounterState :=
  if config.minValue < state.value then
    counterReducer state { type := CounterActionType.DECREMENT, payload := none }
  else
    state

/-- The reset callback of useCounter (src/hooks/index.ts lines 208-210). -/
def useCounter.reset (state : CounterState) : CounterState :=
  counterReducer state { type := CounterActionType.RESET, payload := none }

/-- The setValue callback of useCounter (src/hooks/index.ts lines 212-218):
clamps the requested value into the configured bounds before dispatch. -/
def useCounter.setValue (config : CounterConfig) (state : CounterState) (value : Int) :
    CounterState :=
  let clampedValue := max config.minValue (min config.maxValue value)
  counterReducer state { type := CounterActionType.SET_VALUE, payload := some clampedValue }

/-- isAtMin of useCounter (src/hooks/index.ts line 220). -/
def useCounter.isAtMin (config : CounterConfig) (state : CounterState) : Bool :=
  state.value ≤ config.minValue

/-- isAtMax of useCounter (src/hooks/index.ts line 221). -/
def useCounter.isAtMax (config : CounterConfig) (state : CounterState) : Bool :=
  state.value ≥ config.maxValue

/-- One user intent issued through the public hook interface. -/
inductive CounterOp where
  | increment
  | decrement
  | reset
  | setValue (v : Int)
  deriving DecidableEq, Repr

/-- Apply one public hook operation to the current state. -/
def applyOp (config : CounterConfig) (state : CounterState) : CounterOp → CounterState
  | CounterOp.increment => useCounter.increment config state
  | CounterOp.decrement => useCounter.decrement config state
  | CounterOp.reset => useCounter.reset state
  | CounterOp.setValue v => useCounter.setValue config state v

/-- Run a sequence of public hook operations from the hook's initial
state. -/
def runOps (config : CounterConfig) (ops : List CounterOp) : CounterState :=
  ops.foldl (applyOp config) (initialState config)

/-! Helper lemmas about the value computed by each public hook operation. -/

theorem increment_value (config : CounterConfig) (state : CounterState) :
    (useCounter.increment config state).value =
      if state.value < config.maxValue then state.value + 1 else state.value := by
  by_cases h : state.value < config.maxValue <;>
    simp [useCounter.increment, counterReducer, CounterActionType.INCREMENT, h]

theorem decrement_value (config : CounterConfig) (state : CounterState) :
    (useCounter.decrement config state).value =
      if config.minValue < state.value then max 0 (state.value - 1) else state.value := by
  by_cases h : config.minValue < state.value <;>
    simp [useCounter.decrement, counterReducer, CounterActionType.INCREMENT,
      CounterActionType.DECREMENT, h]

theorem reset_value (state : CounterState) : (useCounter.reset state).value = 0 := by
  simp [useCounter.reset, counterReducer, CounterActionType.INCREMENT,
    CounterActionType.DECREMENT, CounterActionType.RESET]

theorem setValue_value (config : CounterConfig) (state : CounterState) (v : Int) :
    (useCounter.setValue config state v).value =
      max config.minValue (min config.maxValue v) := by
  simp [useCounter.setValue, counterReducer, CounterActionType.INCREMENT,
    CounterActionType.DECREMENT, CounterActionType.RESET, CounterActionType.SET_VALUE]

/-! Helper lemmas about the error field: no branch of the reducer writes it. -/

theorem counterReducer_error (state : CounterState) (action : CounterAction) :
    (counterReducer state action).error = state.error := by
  unfold counterReducer
  split_ifs <;> rfl

theorem applyOp_error (config : CounterConfig) (state : CounterState) (op : CounterOp) :
    (applyOp config state op).error = state.error := by
  cases op <;>
    simp only [applyOp, useCounter.increment, useCounter.decrement, useCounter.reset,
      useCounter.setValue] <;>
    first
      | exact counterReducer_error ..
      | split_ifs <;> rfl

theorem foldl_error (config : CounterConfig) :
    ∀ (ops : List CounterOp) (state : CounterState),
      (ops.foldl (applyOp config) state).error = state.error := by
  intro ops
  induction ops with
  | nil => intro state; rfl
  | cons op rest ih =>
      intro state
      rw [List.foldl_cons, ih, applyOp_error]

/-! Helper lemmas for bound preservation.  The reducer itself does not
enforce the configured bounds: reset writes 0 outright and decrement
floors at 0, so preservation needs the configuration to place 0 inside
the bounds. -/

theorem applyOp_bounds (config : CounterConfig) (h0 : config.minValue ≤ 0)
    (h1 : 0 ≤ config.maxValue) (state : CounterState)
    (hs : config.minValue ≤ state.value ∧ state.value ≤ config.maxValue)
    (op : CounterOp) :
    config.minValue ≤ (applyOp config state op).value ∧
      (applyOp config state op).value ≤ config.maxValue := by
  cases op with
  | increment =>
      rw [applyOp, increment_value]
      split_ifs with h <;> omega
  | decrement =>
      rw [applyOp, decrement_value]
      split_ifs with h <;> omega
  | reset =>
      rw [applyOp, reset_value]
      omega
  | setValue v =>
      rw [applyOp, setValue_value]
      omega

theorem foldl_bounds (config : CounterConfig) (h0 : config.minValue ≤ 0)
    (h1 : 0 ≤ config.maxValue) :
    ∀ (ops : List CounterOp) (state : CounterState),
      config.minValue ≤ state.value ∧ state.value ≤ config.maxValue →
      config.minValue ≤ (ops.foldl (applyOp config) state).value ∧
        (ops.foldl (applyOp config) state).value ≤ config.maxValue := by
  intro ops
  induction ops with
  | nil => intro state hs; exact hs
  | cons op rest ih =>
      intro state hs
      rw [List.foldl_cons]
      exact ih _ (applyOp_bounds config h0 h1 state hs op)

/-! Theme-mode resolver (useTheme in src/hooks/index.ts).  ThemeMode is the
three-string const assertion in src/types/index.ts; the stored preference
and the system signal are ThemeMode values, with the system signal only
ever light or dark. -/

/-- ThemeMode from src/types/index.ts: light, dark, system. -/
inductive ThemeMode where
  | light
  | dark
  | system
  deriving DecidableEq, Repr

/-- currentTheme of useTheme (src/hooks/index.ts lines 260-265): the
effective mode is the system signal when the stored preference is system,
and the stored preference itself otherwise. -/
def currentTheme (storedPreference systemSignal : ThemeMode) : ThemeMode :=
  if storedPreference = ThemeMode.system then systemSignal else storedPreference

/-- toggleTheme of useTheme (src/hooks/index.ts lines 304-307): computes
the next stored preference from the current effective mode and writes it
through themeStorage.setValue; this definition returns the value written. -/
def toggleTheme (effectiveMode : ThemeMode) : ThemeMode :=
  if effectiveMode = ThemeMode.dark then ThemeMode.light else ThemeMode.dark

/-! Persistent storage (createStorageAdapter in src/utils/index.ts and the
read path of useLocalStorage in src/hooks/index.ts).  The browser Storage
medium is a string-to-string map, modelled as an association list with
last-write-wins lookup.  JSON.stringify and JSON.parse are browser
built-ins, not code of this repository; they are modelled as an abstract
codec, where none stands for a thrown serialization or parse error.  A
value is serializable when the codec serializes it to a non-empty string
that parses back to the same value (JSON.stringify never returns the empty
string for a defined value; the emptiness caveat exists because both read
paths test the raw item for JavaScript truthiness before parsing). -/

/-- The browser Storage medium: key-value pairs of strings. -/
def Storage : Type := List (String × String)

/-- Storage.getItem: the most recently written value for the key, if any. -/
def Storage.getItem (σ : Storage) (key : String) : Option String :=
  (List.find? (fun p => p.1 = key) σ).map (fun p => p.2)

/-- Storage.setItem: write a value for the key (most recent write first). -/
def Storage.setItem (σ : Storage) (key value : String) : Storage :=
  (key, value) :: σ

/-- An abstract serialization codec standing for the JSON.stringify and
JSON.parse built-ins used by the storage adapter; none models a thrown
error. -/
structure Codec (α : Type) where
  stringify : α → Option String
  parse : String → Option α

/-- A value the codec round-trips through a non-empty string. -/
def Serializable {α : Type} (c : Codec α) (v : α) : Prop :=
  ∃ s : String, c.stringify v = some s ∧ s ≠ "" ∧ c.parse s = some v

/-- PersistentStore.set, from setItem of createStorageAdapter
(src/utils/index.ts lines 352-358) and the write path of useLocalStorage
(src/hooks/index.ts lines 50-63): serialize and write; a serialization
failure is swallowed and leaves storage as it was. -/
def PersistentStore.set {α : Type} (c : Codec α) (σ : Storage) (key : String) (v : α) :
    Storage :=
  match c.stringify v with
  | some s => σ.setItem key s
  | none => σ

/-- PersistentStore.get, from the read path of useLocalStorage
(src/hooks/index.ts lines 34-48) and getItem of createStorageAdapter
(src/utils/index.ts lines 343-350): read the raw item; when it is absent
or empty (JavaScript falsy) or fails to parse, the default is returned. -/
def PersistentStore.get {α : Type} (c : Codec α) (σ : Storage) (key : String) (d : α) : α :=
  match σ.getItem key with
  | none => d
  | some s => if s = "" then d else (c.parse s).getD d

/-- An identity codec for plain string payloads, such as the theme-mode
preference strings. -/
def stringCodec : Codec String :=
  { stringify := fun s => some s, parse := fun s => some s }

/-- A codec for integer payloads whose parse always fails, standing for a
stored raw item that JSON.parse throws on. -/
def failingParseCodec : Codec Int :=
  { stringify := fun n => some (toString n), parse := fun _ => none }

/-- Reading a key just written returns the written raw string. -/
theorem Storage.getItem_setItem (σ : Storage) (key value : String) :
    (σ.setItem key value).getItem key = some value := by
  rw [Storage.setItem, Storage.getItem, List.find?_cons_of_pos _ (by simp)]
  rfl

/-! Claim theorems. -/

/-- C1 counterexample: the bound invariant fails for configurations the
claim quantifies over.  With minValue 5, maxValue 10, initialValue 7, one
reset drives the value to 0, below minValue (the reducer resets to 0
regardless of the bounds); and with initialValue 20 under bounds 0..10 the
initial state itself is already out of bounds (useCounter does not clamp
the configured initialValue). -/
theorem counter_bounds_counterexample :
    (¬ (5 : Int) ≤ (runOps ⟨7, 5, 10, 1, true, false⟩ [CounterOp.reset]).value) ∧
    (¬ (runOps ⟨20, 0, 10, 1, true, false⟩ []).value ≤ 10) := by
  decide

/-- C1 (corrected): for every configuration whose bounds contain 0 and
whose initialValue lies within the bounds, every sequence of public hook
operations keeps minValue ≤ value ≤ maxValue after every step. -/
theorem counter_bounds_invariant (config : CounterConfig)
    (h0 : config.minValue ≤ 0) (h1 : 0 ≤ config.maxValue)
    (hinit : config.minValue ≤ config.initialValue ∧
      config.initialValue ≤ config.maxValue)
    (ops : List CounterOp) :
    config.minValue ≤ (runOps config ops).value ∧
      (runOps config ops).value ≤ config.maxValue :=
  foldl_bounds config h0 h1 ops (initialState config) hinit

/-- C1 witness: the invariant theorem applied to the configuration with
initialValue 5 and bounds 0..10 and one increment. -/
theorem counter_bounds_invariant_witness :
    (0 : Int) ≤ (runOps ⟨5, 0, 10, 1, true, false⟩ [CounterOp.increment]).value ∧
      (runOps ⟨5, 0, 10, 1, true, false⟩ [CounterOp.increment]).value ≤ 10 :=
  counter_bounds_invariant ⟨5, 0, 10, 1, true, false⟩ (by decide) (by decide)
    (by decide) [CounterOp.increment]

/-- C2 counterexample: with step 2 configured, incrementing from 0 under
maxValue 10 yields 1, not min (0 + step) maxValue = 2; the reducer always
adds exactly 1 and ignores the configured step. -/
theorem increment_min_step_counterexample :
    (useCounter.increment ⟨0, 0, 10, 2, true, false⟩ ⟨0, false, none, []⟩).value ≠
      min ((0 : Int) + 2) 10 := by
  decide

/-- C2 (corrected): for states with value ≤ maxValue, increment yields
min (value + 1) maxValue — the configured step is ignored and the added
amount is always 1 — and at value = maxValue the dispatch is suppressed,
so the state is returned unchanged (clamped at the boundary, no error). -/
theorem increment_clamps_at_max (config : CounterConfig) (state : CounterState)
    (h : state.value ≤ config.maxValue) :
    (useCounter.increment config state).value = min (state.value + 1) config.maxValue ∧
    (state.value = config.maxValue → useCounter.increment config state = state) := by
  constructor
  · rw [increment_value]
    split_ifs <;> omega
  · intro he
    rw [useCounter.increment, if_neg (by omega)]

/-- C2 witness: the increment theorem applied at value 3 under maxValue 10,
and at the boundary value 10. -/
theorem increment_clamps_at_max_witness :
    (useCounter.increment ⟨0, 0, 10, 1, true, false⟩ ⟨3, false, none, []⟩).value =
        min ((3 : Int) + 1) 10 ∧
    useCounter.increment ⟨0, 0, 10, 1, true, false⟩ ⟨10, false, none, []⟩ =
        ⟨10, false, none, []⟩ :=
  ⟨(increment_clamps_at_max ⟨0, 0, 10, 1, true, false⟩ ⟨3, false, none, []⟩ (by decide)).1,
   (increment_clamps_at_max ⟨0, 0, 10, 1, true, false⟩ ⟨10, false, none, []⟩ (by decide)).2
     rfl⟩

/-- C3 counterexample: with minValue -5 and step 1, decrementing from 0
yields 0, not max (0 - 1) (-5) = -1; the reducer floors at 0, not at the
configured minValue. -/
theorem decrement_min_floor_counterexample :
    (useCounter.decrement ⟨0, -5, 10, 1, true, false⟩ ⟨0, false, none, []⟩).value ≠
      max ((0 : Int) - 1) (-5) := by
  decide

/-- C3 (corrected): when minValue < value, decrement yields
max (value - 1) 0 — the reducer subtracts exactly 1 (ignoring step) and
floors at 0, not at the configured minValue — and when value ≤ minValue
the dispatch is suppressed, so the state is unchanged; in particular at
value = minValue the value stays minValue. -/
theorem decrement_floors_at_zero (config : CounterConfig) (state : CounterState) :
    (config.minValue < state.value →
      (useCounter.decrement config state).value = max (state.value - 1) 0) ∧
    (state.value ≤ config.minValue → useCounter.decrement config state = state) := by
  constructor
  · intro h
    rw [decrement_value, if_pos h]
    omega
  · intro h
    rw [useCounter.decrement, if_neg (by omega)]

/-- C3 witness: the decrement theorem applied at value 3 over minValue 0,
and at the boundary value 0. -/
theorem decrement_floors_at_zero_witness :
    (useCounter.decrement ⟨0, 0, 10, 1, true, false⟩ ⟨3, false, none, []⟩).value =
        max ((3 : Int) - 1) 0 ∧
    useCounter.decrement ⟨0, 0, 10, 1, true, false⟩ ⟨0, false, none, []⟩ =
        ⟨0, false, none, []⟩ :=
  ⟨(decrement_floors_at_zero ⟨0, 0, 10, 1, true, false⟩ ⟨3, false, none, []⟩).1 (by decide),
   (decrement_floors_at_zero ⟨0, 0, 10, 1, true, false⟩ ⟨0, false, none, []⟩).2 (by decide)⟩

/-- C4: for every state and every recognized action kind, the reducer's
result history is the input history with exactly one entry appended, whose
previousValue is the pre-dispatch value and whose newValue is the
post-dispatch value. -/
theorem counterReducer_appends_one_entry (state : CounterState) (action : CounterAction)
    (h : action.type ∈ recognizedActionTypes) :
    ∃ e : CounterHistoryEntry,
      (counterReducer state action).history = state.history ++ [e] ∧
      e.previousValue = state.value ∧
      e.newValue = (counterReducer state action).value := by
  simp only [recognizedActionTypes, CounterActionType.INCREMENT, CounterActionType.DECREMENT,
    CounterActionType.RESET, CounterActionType.SET_VALUE, List.mem_cons,
    List.not_mem_nil, or_false] at h
  rcases h with h | h | h | h
  · exact ⟨createHistoryEntry CounterActionType.INCREMENT state.value (state.value + 1),
      by simp [counterReducer, h, CounterActionType.INCREMENT], rfl,
      by simp [counterReducer, h, CounterActionType.INCREMENT, createHistoryEntry]⟩
  · exact ⟨createHistoryEntry CounterActionType.DECREMENT state.value
        (max 0 (state.value - 1)),
      by simp [counterReducer, h, CounterActionType.INCREMENT, CounterActionType.DECREMENT],
      rfl,
      by simp [counterReducer, h, CounterActionType.INCREMENT, CounterActionType.DECREMENT,
        createHistoryEntry]⟩
  · exact ⟨createHistoryEntry CounterActionType.RESET state.value 0,
      by simp [counterReducer, h, CounterActionType.INCREMENT, CounterActionType.DECREMENT,
        CounterActionType.RESET],
      rfl,
      by simp [counterReducer, h, CounterActionType.INCREMENT, CounterActionType.DECREMENT,
        CounterActionType.RESET, createHistoryEntry]⟩
  · exact ⟨createHistoryEntry CounterActionType.SET_VALUE state.value (action.payload.getD 0),
      by simp [counterReducer, h, CounterActionType.INCREMENT, CounterActionType.DECREMENT,
        CounterActionType.RESET, CounterActionType.SET_VALUE],
      rfl,
      by simp [counterReducer, h, CounterActionType.INCREMENT, CounterActionType.DECREMENT,
        CounterActionType.RESET, CounterActionType.SET_VALUE, createHistoryEntry]⟩

/-- C4 witness: the history-append theorem applied to a concrete state and
the INCREMENT action. -/
theorem counterReducer_appends_one_entry_witness :
    ("INCREMENT" ∈ recognizedActionTypes) ∧
    ∃ e : CounterHistoryEntry,
      (counterReducer ⟨2, false, none, []⟩ ⟨"INCREMENT", none⟩).history = [] ++ [e] ∧
      e.previousValue = 2 ∧
      e.newValue = (counterReducer ⟨2, false, none, []⟩ ⟨"INCREMENT", none⟩).value :=
  ⟨by decide,
   counterReducer_appends_one_entry ⟨2, false, none, []⟩ ⟨"INCREMENT", none⟩ (by decide)⟩

/-- C5: after every sequence of public hook operations from the initial
state, the error field is none: the initial state's error is none and no
branch of the reducer writes the field, so after every successful mutation
the error field is none (cleared), and it is never set by the counter. -/
theorem counter_error_always_none (config : CounterConfig) (ops : List CounterOp) :
    (runOps config ops).error = none := by
  rw [runOps, foldl_error]
  rfl

/-- C6: for every state and every action whose kind is not one of the four
recognized kinds, the reducer hits the default branch and returns the
input state itself (in the source, literally the same object reference). -/
theorem counterReducer_unrecognized_noop (state : CounterState) (action : CounterAction)
    (h : action.type ∉ recognizedActionTypes) :
    counterReducer state action = state := by
  simp only [recognizedActionTypes, CounterActionType.INCREMENT, CounterActionType.DECREMENT,
    CounterActionType.RESET, CounterActionType.SET_VALUE, List.mem_cons,
    List.not_mem_nil, or_false, not_or] at h
  obtain ⟨h1, h2, h3, h4⟩ := h
  rw [counterReducer]
  simp only [CounterActionType.INCREMENT, CounterActionType.DECREMENT,
    CounterActionType.RESET, CounterActionType.SET_VALUE]
  rw [if_neg h1, if_neg h2, if_neg h3, if_neg h4]

/-- C6 witness: the no-op theorem applied to a concrete state and an
unrecognized action kind. -/
theorem counterReducer_unrecognized_noop_witness :
    ("BOGUS" ∉ recognizedActionTypes) ∧
    counterReducer ⟨3, false, none, []⟩ ⟨"BOGUS", none⟩ = ⟨3, false, none, []⟩ :=
  ⟨by decide,
   counterReducer_unrecognized_noop ⟨3, false, none, []⟩ ⟨"BOGUS", none⟩ (by decide)⟩

/-- C7: the effective theme mode equals the stored preference when that
preference is not system, and equals the system signal when it is system;
currentTheme is a function of exactly these two inputs. -/
theorem currentTheme_resolution (p s : ThemeMode) :
    (p ≠ ThemeMode.system → currentTheme p s = p) ∧
    (p = ThemeMode.system → currentTheme p s = s) := by
  constructor
  · intro h
    rw [currentTheme, if_neg h]
  · intro h
    rw [currentTheme, if_pos h]

/-- C7 witness: the resolution theorem applied at the pairs (light, dark)
and (system, dark). -/
theorem currentTheme_resolution_witness :
    currentTheme ThemeMode.light ThemeMode.dark = ThemeMode.light ∧
    currentTheme ThemeMode.system ThemeMode.dark = ThemeMode.dark :=
  ⟨(currentTheme_resolution ThemeMode.light ThemeMode.dark).1 (by decide),
   (currentTheme_resolution ThemeMode.system ThemeMode.dark).2 rfl⟩

/-- C8: toggling when the current effective mode is dark stores light,
toggling when it is light stores dark, and the stored preference written
by toggle is never system. -/
theorem toggleTheme_flips (p s : ThemeMode) :
    (currentTheme p s = ThemeMode.dark →
      toggleTheme (currentTheme p s) = ThemeMode.light) ∧
    (currentTheme p s = ThemeMode.light →
      toggleTheme (currentTheme p s) = ThemeMode.dark) ∧
    toggleTheme (currentTheme p s) ≠ ThemeMode.system := by
  refine ⟨?_, ?_, ?_⟩
  · intro h
    rw [h]
    rfl
  · intro h
    rw [h]
    rfl
  · rw [toggleTheme]
    split_ifs <;> decide

/-- C8 witness: the toggle theorem applied where the effective mode is
dark (stored dark), and where it is light via the system preference
(stored system, signal light). -/
theorem toggleTheme_flips_witness :
    toggleTheme (currentTheme ThemeMode.dark ThemeMode.light) = ThemeMode.light ∧
    toggleTheme (currentTheme ThemeMode.system ThemeMode.light) = ThemeMode.dark ∧
    toggleTheme (currentTheme ThemeMode.dark ThemeMode.light) ≠ ThemeMode.system :=
  ⟨(toggleTheme_flips ThemeMode.dark ThemeMode.light).1 rfl,
   (toggleTheme_flips ThemeMode.system ThemeMode.light).2.1 rfl,
   (toggleTheme_flips ThemeMode.dark ThemeMode.light).2.2⟩

/-- C9: a successful set followed by get returns the stored value, not the
default, for every serializable value; and when the entry is absent or
fails to parse, get returns the default (get performs no write, so storage
is unmodified). -/
theorem persistentStore_roundtrip {α : Type} (c : Codec α) (σ : Storage) (key : String)
    (v : α) (d : α) :
    (Serializable c v →
      PersistentStore.get c (PersistentStore.set c σ key v) key d = v) ∧
    (σ.getItem key = none → PersistentStore.get c σ key d = d) ∧
    (∀ s, σ.getItem key = some s → c.parse s = none →
      PersistentStore.get c σ key d = d) := by
  refine ⟨?_, ?_, ?_⟩
  · rintro ⟨s, hs, hne, hp⟩
    have hget : (PersistentStore.set c σ key v).getItem key = some s := by
      rw [PersistentStore.set, hs]
      exact Storage.getItem_setItem σ key s
    simp [PersistentStore.get, hget, hne, hp]
  · intro h
    simp [PersistentStore.get, h]
  · intro s hs hp
    simp [PersistentStore.get, hs, hp]

/-- C9 witness: the round-trip theorem applied with an identity string
codec at key theme-mode, an empty storage, and a codec whose parse fails
on a stored raw item. -/
theorem persistentStore_roundtrip_witness :
    PersistentStore.get stringCodec
        (PersistentStore.set stringCodec ([] : Storage) "theme-mode" "dark")
        "theme-mode" "light" = "dark" ∧
    PersistentStore.get stringCodec ([] : Storage) "theme-mode" "light" = "light" ∧
    PersistentStore.get failingParseCodec
        ([("counter-value", "oops")] : Storage) "counter-value" 0 = 0 :=
  ⟨(persistentStore_roundtrip stringCodec ([] : Storage) "theme-mode" "dark" "light").1
      ⟨"dark", rfl, by decide, rfl⟩,
   (persistentStore_roundtrip stringCodec ([] : Storage) "theme-mode" "light" "light").2.1
      rfl,
   (persistentStore_roundtrip failingParseCodec ([("counter-value", "oops")] : Storage)
      "counter-value" 0 0).2.2 "oops" rfl rfl⟩

/-- C10: isAtMin is true exactly when value ≤ minValue and isAtMax is true
exactly when value ≥ maxValue; the comparisons are inclusive thresholds on
the raw state value, so a value strictly outside the bounds also reports
the corresponding flag true. -/
theorem isAtMin_isAtMax_inclusive (config : CounterConfig) (state : CounterState) :
    (useCounter.isAtMin config state = true ↔ state.value ≤ config.minValue) ∧
    (useCounter.isAtMax config state = true ↔ state.value ≥ config.maxValue) := by
  constructor <;> simp [useCounter.isAtMin, useCounter.isAtMax]
